import Mathlib

/-!
# Verification of the ii_analytics visit/event collector

Shallow embedding of the analytics service (`src/server.js`, with the older
revision in `src/unnamed/part_000` used for the route-registration order,
which `server.js` abbreviates to stub registrations).  The persistent store
is modelled as a list of records plus a fresh-identifier counter; each HTTP
handler becomes a pure function from the request data and the store state to
a response (and, for writes, a new store state).  MongoDB ObjectId values
are modelled as natural numbers; the 24-hex-digit string form used on the
wire is parsed by `parseObjectId`.  JavaScript falsy-string coalescing
(`x || d`) is modelled by `strOr`.
-/

namespace IIAnalytics

/-- JS `x || d` on an optional string: absent or empty falls back to `d`
(mirrors `page || '/'`, `referrer || 'direct'`, `site || 'unknown'`,
`event || 'visit'` in the track handler). -/
def strOr (o : Option String) (d : String) : String :=
  match o with
  | some s => if s = "" then d else s
  | none => d

/-- Lookup in the open-schema `metadata` map (association list). -/
def metaLookup (m : List (String × String)) (k : String) : Option String :=
  (m.find? (fun p => p.1 == k)).map (·.2)

/-- Address redaction used by the read paths:
`ip.substring(0, 10) + '...'` in `server.js`. -/
def redactIP (s : String) : String :=
  (s.take 10) ++ "..."

/-- Hexadecimal digit test (ObjectId strings are 24 hex characters). -/
def isHexDigit (c : Char) : Bool :=
  c.isDigit || ('a' ≤ c && c ≤ 'f') || ('A' ≤ c && c ≤ 'F')

/-- A string is a well-formed ObjectId literal iff it is 24 hex characters
(this is what `new ObjectId(s)` accepts for string input; anything else
throws). -/
def isHex24 (s : String) : Bool :=
  s.length = 24 && s.data.all isHexDigit

/-- Numeric value of one hex digit. -/
def hexVal (c : Char) : Nat :=
  if c.isDigit then c.toNat - '0'.toNat
  else if 'a' ≤ c then c.toNat - 'a'.toNat + 10
  else c.toNat - 'A'.toNat + 10

/-- Numeric value of a hex string (case-insensitive, as ObjectId is). -/
def hexToNat (s : String) : Nat :=
  s.data.foldl (fun a c => 16 * a + hexVal c) 0

/-- `new ObjectId(s)`: succeeds exactly on 24-hex-character strings,
yielding the identifier value; otherwise throws (modelled as `none`). -/
def parseObjectId (s : String) : Option Nat :=
  if isHex24 s then some (hexToNat s) else none

/-- One stored document of the `visits` collection. -/
structure Record where
  id : Nat
  ip : String
  timestamp : Nat
  page : String
  referrer : String
  site : String
  userAgent : Option String
  event : Option String
  metadata : List (String × String)
  date : Option String
  messages : Option (List String)
  conversation_metadata : Option (List (String × String))
  conversation_updated_at : Option Nat
  deriving DecidableEq, Repr

/-- The store: the `visits` collection plus the source of fresh ObjectIds. -/
structure Store where
  records : List Record
  nextId : Nat
  deriving DecidableEq, Repr

def Store.empty : Store := ⟨[], 0⟩

/-- A record satisfies the partial filter of the unique index
(`event: { $in: ['visit', null] }` in `connectDB`). -/
def visitIndexed (r : Record) : Bool :=
  r.event == some "visit" || r.event == none

/-- The key of the unique index `{ ip: 1, date: 1, site: 1 }`. -/
def indexKey (r : Record) : String × Option String × String :=
  (r.ip, r.date, r.site)

/-- Body of a `POST /track` request. -/
structure TrackInput where
  site : Option String
  page : Option String
  referrer : Option String
  event : Option String
  metadata : Option (List (String × String))
  deriving DecidableEq, Repr

/-- Response of `POST /track` (the `tracked: true` constant field elided). -/
structure TrackResp where
  unique : Bool
  total : Nat
  sessionId : Option Nat
  deriving DecidableEq, Repr

/-- Would inserting a visit document with this (ip, date, site) violate the
unique partial index, i.e. does a record satisfying the partial filter with
the same index key already exist (duplicate-key error 11000)? -/
def visitIndexConflict (rs : List Record) (ip date site : String) : Bool :=
  rs.any (fun r => visitIndexed r && (r.ip == ip && r.date == some date && r.site == site))

/-- Does a stored record match the `site` term of the fallback query?
The handler queries the RAW destructured body field (`findOne({ ip, date,
site })`, `server.js` lines 158-160), not the normalized
`site || 'unknown'` it stored.  An absent `site` is serialized as null
and matches only documents whose `site` field is null or missing — and
every stored document carries a site string, so it matches none. -/
def siteQueryMatches (rawSite : Option String) (r : Record) : Bool :=
  match rawSite with
  | some s => r.site == s
  | none => false

/-- The fallback lookup in the duplicate branch of the track handler:
`findOne({ ip, date, site })` with the raw request `site` (no event
filter). -/
def findTriple (rs : List Record) (ip date : String) (rawSite : Option String) :
    Option Record :=
  rs.find? (fun r => r.ip == ip && r.date == some date && siteQueryMatches rawSite r)

/-- `POST /track` (`server.js` lines 124-189).  `today` is
`getTodayString()` (the UTC `YYYY-MM-DD` day string) and `now` the current
instant.  Plain visits get a `date` field and go through the unique index;
on a duplicate-key error the handler answers `unique: false` and looks the
existing record up with `findOne({ip, date, site})` over the raw request
site — which misses the stored record when the request site was falsy and
`'unknown'` was stored — returning the identifier it finds, if any.
Non-visit events are always inserted.  `total` is recomputed by
`countDocuments()` after the write.  The `visitData` document assembled
by the handler (before the visit branch adds the `date` field) is split
out as `trackDoc`. -/
def trackDoc (st : Store) (ip : String) (ua : Option String) (inp : TrackInput)
    (now : Nat) : Record :=
  { id := st.nextId, ip := ip, timestamp := now,
    page := strOr inp.page "/", referrer := strOr inp.referrer "direct",
    site := strOr inp.site "unknown", userAgent := ua,
    event := some (strOr inp.event "visit"),
    metadata := inp.metadata.getD [], date := none,
    messages := none, conversation_metadata := none,
    conversation_updated_at := none }

def track (st : Store) (ip : String) (ua : Option String) (inp : TrackInput)
    (today : String) (now : Nat) : Store × TrackResp :=
  let site := strOr inp.site "unknown"
  let eventType := strOr inp.event "visit"
  if eventType = "visit" then
    let vdoc := { trackDoc st ip ua inp now with date := some today }
    if visitIndexConflict st.records ip today site then
      (st, { unique := false, total := st.records.length,
             sessionId := (findTriple st.records ip today inp.site).map (·.id) })
    else
      let st' : Store := ⟨st.records ++ [vdoc], st.nextId + 1⟩
      (st', { unique := true, total := st'.records.length,
              sessionId := some st.nextId })
  else
    let st' : Store := ⟨st.records ++ [trackDoc st ip ua inp now], st.nextId + 1⟩
    (st', { unique := true, total := st'.records.length,
            sessionId := some st.nextId })

/-- Result of `POST /save_messages`:  400 / 404 / 500 / success
(`messageCount`). -/
inductive SaveResult where
  | invalidArgument
  | notFound
  | serverError
  | ok (messageCount : Nat)
  deriving DecidableEq, Repr

/-- HTTP status of a `save_messages` outcome. -/
def SaveResult.status : SaveResult → Nat
  | .invalidArgument => 400
  | .notFound => 404
  | .serverError => 500
  | .ok _ => 200

/-- The `$set` update of `save_messages`: overwrite the conversation fields
of the record(s) matching the identifier, leaving everything else alone. -/
def updateConv (oid : Nat) (msgs : List String)
    (cm : List (String × String)) (now : Nat) (r : Record) : Record :=
  if r.id == oid then
    { r with messages := some msgs, conversation_metadata := some cm,
             conversation_updated_at := some now }
  else r

/-- `POST /save_messages` (`server.js` lines 474-510).  Falsy `sessionId`
or absent `messages` → 400 (`sessionId and messages required`); a
malformed identifier makes `new ObjectId(sessionId)` throw inside the
`try`, caught as a 500; `matchedCount === 0` → 404; otherwise the `$set`
replaces `messages` / `conversation_metadata` and stamps
`conversation_updated_at`, answering with the message count. -/
def save_messages (st : Store) (sessionId : Option String)
    (messages : Option (List String)) (metadata : Option (List (String × String)))
    (now : Nat) : Store × SaveResult :=
  match sessionId, messages with
  | none, _ => (st, .invalidArgument)
  | some _, none => (st, .invalidArgument)
  | some sid, some msgs =>
    if sid = "" then (st, .invalidArgument)
    else
      match parseObjectId sid with
      | none => (st, .serverError)
      | some oid =>
        if st.records.any (fun r => r.id == oid) then
          (⟨st.records.map (updateConv oid msgs (metadata.getD []) now), st.nextId⟩,
           .ok msgs.length)
        else (st, .notFound)

/-!
## Aggregation queries and gated read endpoints
-/

/-- The visit filter `{ event: { $in: ['visit', null] } }` as a list
filter. -/
def visitFilter (rs : List Record) : List Record :=
  rs.filter visitIndexed

/-- `countDocuments(visitFilter)`: total plain-visit count. -/
def totalVisits (st : Store) : Nat :=
  (visitFilter st.records).length

/-- `distinct('ip', visitFilter).length`. -/
def uniqueIPs (st : Store) : Nat :=
  ((visitFilter st.records).map (·.ip)).dedup.length

/-- Count of visits on one exact day (`{ ...visitFilter, date: today }`). -/
def visitsOn (st : Store) (day : String) : Nat :=
  ((visitFilter st.records).filter (fun r => r.date == some day)).length

/-- Count of visits since a day string (`date: { $gte: bound }`;
documents without a `date` field do not match). -/
def visitsSince (st : Store) (bound : String) : Nat :=
  ((visitFilter st.records).filter
    (fun r => match r.date with
      | some d => decide (bound ≤ d)
      | none => false)).length

/-- `countDocuments({ event: 'conversion', 'metadata.type':
'session_started' })`: the conversion numerator of the global summary. -/
def conversionCount (st : Store) : Nat :=
  (st.records.filter (fun r =>
    r.event == some "conversion" &&
    metaLookup r.metadata "type" == some "session_started")).length

/-- Nearest-hundredth value of `(num / denom) * 100`, i.e.
`⌊num·10000/denom + 1/2⌋` hundredths of a percent.  This is the exact
value of `((num/denom)*100).toFixed(2)` (JS rounds to the nearest
hundredth). -/
def rateHundredths (num denom : Nat) : Nat :=
  (2 * (num * 10000) + denom) / (2 * denom)

/-- Render a number of hundredths as a fixed two-decimal string
(`toFixed(2)`). -/
def fixed2 (n : Nat) : String :=
  toString (n / 100) ++ "." ++ (if n % 100 < 10 then "0" else "") ++ toString (n % 100)

/-- The conversion-rate string: `totalVisits > 0 ?
((count/totalVisits)*100).toFixed(2) : 0`, then interpolated into
`` `${conversionRate}%` ``. -/
def conversionRateStr (num denom : Nat) : String :=
  if 0 < denom then fixed2 (rateHundredths num denom) ++ "%" else "0%"

/-- Redacted projection of a record in `recent_visits` of `GET /stats`. -/
structure RecentVisitView where
  time : Nat
  ip : String
  site : String
  page : String
  device : String
  referrer : String
  deriving DecidableEq, Repr

def recentVisitView (v : Record) : RecentVisitView :=
  { time := v.timestamp, ip := redactIP v.ip, site := v.site, page := v.page,
    device := strOr (metaLookup v.metadata "deviceType") "unknown",
    referrer := v.referrer }

/-- Projection of a record in `recent_events` of `GET /stats` (note: no
address field at all). -/
structure RecentEventView where
  time : Nat
  event : Option String
  site : String
  metadata : List (String × String)
  deriving DecidableEq, Repr

def recentEventView (e : Record) : RecentEventView :=
  { time := e.timestamp, event := e.event, site := e.site, metadata := e.metadata }

/-- `sort({ timestamp: -1 })`. -/
def sortTsDesc (rs : List Record) : List Record :=
  rs.insertionSort (fun a b => b.timestamp ≤ a.timestamp)

/-- The `summary` object of `GET /stats`. -/
structure Summary where
  total_visits : Nat
  unique_ips : Nat
  today : Nat
  last_7_days : Nat
  last_30_days : Nat
  conversions : Nat
  conversion_rate : String
  deriving DecidableEq, Repr

/-- Response of `GET /stats` (the `by_site` / `by_date` / `by_device` /
`conversions` breakdown maps, which no claim touches, are elided). -/
structure StatsResp where
  summary : Summary
  recent_visits : List RecentVisitView
  recent_events : List RecentEventView
  deriving DecidableEq, Repr

/-- The authorized body of `GET /stats` (`server.js` lines 198-316). -/
def statsBody (st : Store) (today weekAgo monthAgo : String) : StatsResp :=
  { summary :=
      { total_visits := totalVisits st,
        unique_ips := uniqueIPs st,
        today := visitsOn st today,
        last_7_days := visitsSince st weekAgo,
        last_30_days := visitsSince st monthAgo,
        conversions := conversionCount st,
        conversion_rate := conversionRateStr (conversionCount st) (totalVisits st) },
    recent_visits :=
      ((sortTsDesc (visitFilter st.records)).take 20).map recentVisitView,
    recent_events :=
      ((sortTsDesc (st.records.filter (fun r => !visitIndexed r))).take 20).map
        recentEventView }

/-- One bucket bump inside a group-by (association-list counting). -/
def incr : List (String × Nat) → String → List (String × Nat)
  | [], k => [(k, 1)]
  | (k', n) :: t, k => if k = k' then (k', n + 1) :: t else (k', n) :: incr t k

/-- `$group: { _id: key, count: { $sum: 1 } }` over a record list
(bucket order is irrelevant to the claims; the display sort is elided). -/
def countBy (key : Record → String) (rs : List Record) : List (String × Nat) :=
  rs.foldl (fun acc r => incr acc (key r)) []

/-- Sum of the bucket counts (`byPage.reduce((sum, item) => sum +
item.count, 0)`). -/
def sumCounts (l : List (String × Nat)) : Nat :=
  (l.map (·.2)).sum

/-- `summary` of `GET /stats/:site`. -/
structure SiteSummary where
  total : Nat
  today : Nat
  last_7_days : Nat
  conversions : Nat
  conversion_rate : String
  deriving DecidableEq, Repr

/-- Response of `GET /stats/:site` (`by_date` / `by_device` elided). -/
structure SiteStatsResp where
  site : String
  summary : SiteSummary
  by_page : List (String × Nat)
  deriving DecidableEq, Repr

/-- Visits of one site: `{ site, event: { $in: ['visit', null] } }`. -/
def siteVisits (st : Store) (site : String) : List Record :=
  st.records.filter (fun r => r.site == site && visitIndexed r)

/-- `countDocuments({ site, event: 'conversion', 'metadata.type':
'session_started' })`. -/
def siteConversions (st : Store) (site : String) : Nat :=
  (st.records.filter (fun r =>
    r.site == site && r.event == some "conversion" &&
    metaLookup r.metadata "type" == some "session_started")).length

/-- The authorized body of `GET /stats/:site` (`server.js` lines
346-414): the `total` is the sum of the `by_page` bucket counts. -/
def siteStatsBody (st : Store) (site today weekAgo : String) : SiteStatsResp :=
  let byPage := countBy (·.page) (siteVisits st site)
  let total := sumCounts byPage
  { site := site,
    summary :=
      { total := total,
        today := ((siteVisits st site).filter (fun r => r.date == some today)).length,
        last_7_days := ((siteVisits st site).filter
          (fun r => match r.date with
            | some d => decide (weekAgo ≤ d)
            | none => false)).length,
        conversions := siteConversions st site,
        conversion_rate := conversionRateStr (siteConversions st site) total },
    by_page := byPage }

/-- Does a record carry a non-empty conversation
(`messages: { $exists: true, $ne: [] }`)? -/
def hasConversation (r : Record) : Bool :=
  match r.messages with
  | some (_ :: _) => true
  | _ => false

/-- `summary` of `GET /stats/conversations` (averages and breakdowns,
which no claim touches, are elided). -/
structure ConvSummary where
  total_visits : Nat
  with_conversations : Nat
  conversion_rate : String
  total_messages : Nat
  deriving DecidableEq, Repr

/-- The authorized body of `GET /stats/conversations` (`server.js` lines
557-632). -/
def convStatsBody (st : Store) : ConvSummary :=
  let withConversations := (st.records.filter hasConversation).length
  { total_visits := totalVisits st,
    with_conversations := withConversations,
    conversion_rate := conversionRateStr withConversations (totalVisits st),
    total_messages :=
      ((st.records.filter hasConversation).map
        (fun c => (c.messages.getD []).length)).sum }

/-- Response body of `GET /visit/:id`. -/
structure VisitView where
  id : Nat
  timestamp : Nat
  site : String
  page : String
  device : String
  referrer : String
  ip : String
  messages : List String
  conversation_metadata : Option (List (String × String))
  has_conversation : Bool
  deriving DecidableEq, Repr

/-- Projection of one record by `GET /visit/:id` (`server.js` lines
530-541): the address is redacted, missing conversation fields default. -/
def visitView (v : Record) : VisitView :=
  { id := v.id, timestamp := v.timestamp, site := v.site, page := v.page,
    device := strOr (metaLookup v.metadata "deviceType") "unknown",
    referrer := v.referrer, ip := redactIP v.ip,
    messages := v.messages.getD [],
    conversation_metadata := v.conversation_metadata,
    has_conversation := (v.messages.getD []).length > 0 }

/-- Outcome of the record lookup in `GET /visit/:id`: bad ObjectId → the
constructor throws → 500; no match → 404. -/
inductive VisitResult where
  | notFound
  | serverError
  | found (v : VisitView)
  deriving DecidableEq, Repr

/-- One flattened row of the CSV export.  The `Date`/`Time` columns are
both derived from the timestamp (`timestamp.toISOString().split('T')`);
the ISO rendering of the instant is kept abstract as the instant itself. -/
structure CsvRow where
  ts : Nat
  site : String
  page : String
  event : String
  device : String
  language : String
  timezone : String
  referrer : String
  ip : String
  deriving DecidableEq, Repr

/-- One CSV row (`server.js` line 447): `event || 'visit'`, metadata
fields defaulting to the empty string, and the redacted address. -/
def csvRow (r : Record) : CsvRow :=
  { ts := r.timestamp, site := r.site, page := r.page,
    event := strOr r.event "visit",
    device := strOr (metaLookup r.metadata "device") "",
    language := strOr (metaLookup r.metadata "language") "",
    timezone := strOr (metaLookup r.metadata "timezone") "",
    referrer := r.referrer, ip := redactIP r.ip }

/-- Body of `GET /admin/export`: the CSV branch flattens each record into
a redacted row; the JSON branch dumps the raw records verbatim. -/
inductive ExportResp where
  | csv (rows : List CsvRow)
  | json (totalRecords : Nat) (records : List Record)
  deriving DecidableEq, Repr

/-- The `type` query parameter filter of the export (`all` / `visits` /
`events`). -/
def filterByType (ty : String) (rs : List Record) : List Record :=
  if ty = "visits" then rs.filter visitIndexed
  else if ty = "events" then rs.filter (fun r => !visitIndexed r)
  else rs

/-!
## The access-control gate and the gated endpoints
-/

/-- `req.headers['x-admin-key'] || req.query.key`: the header value when
truthy, otherwise the query parameter. -/
def adminKeySupplied (header queryKey : Option String) : Option String :=
  match header with
  | some h => if h = "" then queryKey else some h
  | none => queryKey

/-- A gated response: `unauthorized` is the 401 short-circuit taken
before any store query runs. -/
inductive Gated (α : Type) where
  | unauthorized
  | result (a : α)
  deriving DecidableEq, Repr

/-- HTTP status of a gated response (the inner payload may refine 200
further, e.g. 404/500 for the visit lookup). -/
def Gated.status {α : Type} : Gated α → Nat
  | .unauthorized => 401
  | .result _ => 200

/-- `GET /stats` (`server.js` lines 191-322). -/
def statsEndpoint (header queryKey : Option String) (secret : String)
    (today weekAgo monthAgo : String) (st : Store) : Gated StatsResp :=
  if adminKeySupplied header queryKey = some secret then
    .result (statsBody st today weekAgo monthAgo)
  else .unauthorized

/-- `GET /stats/:site` (`server.js` lines 332, 346-420; clean form in
`part_000` lines 508-578). -/
def siteStatsEndpoint (header queryKey : Option String) (secret : String)
    (site today weekAgo : String) (st : Store) : Gated SiteStatsResp :=
  if adminKeySupplied header queryKey = some secret then
    .result (siteStatsBody st site today weekAgo)
  else .unauthorized

/-- `GET /stats/conversations` (`server.js` lines 550-638). -/
def convStatsEndpoint (header queryKey : Option String) (secret : String)
    (st : Store) : Gated ConvSummary :=
  if adminKeySupplied header queryKey = some secret then
    .result (convStatsBody st)
  else .unauthorized

/-- `GET /visit/:id` (`server.js` lines 513-547). -/
def visitEndpoint (header queryKey : Option String) (secret : String)
    (idParam : String) (st : Store) : Gated VisitResult :=
  if adminKeySupplied header queryKey = some secret then
    .result (match parseObjectId idParam with
      | none => .serverError
      | some oid =>
        match st.records.find? (fun r => r.id == oid) with
        | none => .notFound
        | some v => .found (visitView v))
  else .unauthorized

/-- `GET /admin/export` (`server.js` lines 422-467). -/
def exportEndpoint (header queryKey : Option String) (secret : String)
    (format ty : String) (st : Store) : Gated ExportResp :=
  if adminKeySupplied header queryKey = some secret then
    let records := sortTsDesc (filterByType ty st.records)
    if format = "csv" then .result (.csv (records.map csvRow))
    else .result (.json records.length records)
  else .unauthorized

/-- All address strings a gated export response exposes. -/
def ExportResp.ipList : ExportResp → List String
  | .csv rows => rows.map (·.ip)
  | .json _ records => records.map (·.ip)

def Gated.exportIpList : Gated ExportResp → List String
  | .unauthorized => []
  | .result r => r.ipList

/-!
## Routing

Express dispatches a request to the first registered route whose pattern
matches the path; a `:`-prefixed segment matches any one segment.  The
GET-route registration order is the one of the runnable revision
(`part_000`); the abbreviated registration block in `server.js` (lines
324-344) lists the same relative order, in particular
`/stats/conversations` before `/stats/:site` in both.
-/

inductive HandlerTag where
  | root
  | statsFull
  | statsConversations
  | statsSite
  | visitLookup
  | adminExport
  deriving DecidableEq, Repr

/-- Does one pattern segment accept one path segment?  A segment whose
first character is `:` is a parameter and accepts anything. -/
def segMatches (pat seg : String) : Bool :=
  pat.data.head? == some ':' || pat == seg

/-- Does a route pattern match a path (segment lists)? -/
def patMatches : List String → List String → Bool
  | [], [] => true
  | p :: ps, s :: ss => segMatches p s && patMatches ps ss
  | _, _ => false

/-- First-match route dispatch. -/
def firstMatch (routes : List (List String × HandlerTag))
    (path : List String) : Option HandlerTag :=
  (routes.find? (fun rp => patMatches rp.1 path)).map (·.2)

/-- The registered GET routes, in registration order. -/
def routesGET : List (List String × HandlerTag) :=
  [([], .root),
   (["visit", ":id"], .visitLookup),
   (["stats"], .statsFull),
   (["stats", "conversations"], .statsConversations),
   (["stats", ":site"], .statsSite),
   (["admin", "export"], .adminExport)]

/-- Rate formatting as the spec words it: percentages are
`(numerator/denominator)*100` rounded to 2 decimal places, rendered with
a trailing `%`, and reported as `0` (rendered `"0%"`) when the
denominator is zero.  Compared below against the handler's
`conversionRateStr`. -/
def specRateString (num denom : Nat) : String :=
  if denom = 0 then "0%" else fixed2 (rateHundredths num denom) ++ "%"

/-!
## Concrete request fixtures used by witnesses and counterexamples
-/

/-- The spec scenario `{site:"a", page:"/x"}`. -/
def visitInput : TrackInput := ⟨some "a", some "/x", none, none, none⟩

/-- The spec scenario `{site:"a", eventKind:"click", metadata:{el:"btn"}}`. -/
def clickInput : TrackInput := ⟨some "a", none, none, some "click", some [("el", "btn")]⟩

/-- A conversion event with `metadata.type = "session_started"`. -/
def conversionInput : TrackInput :=
  ⟨some "a", none, none, some "conversion", some [("type", "session_started")]⟩

/-- A track body whose `eventKind` is the empty string — a non-`"visit"`
string that `event || 'visit'` nevertheless coalesces to `"visit"`. -/
def emptyEventInput : TrackInput := ⟨some "a", none, none, some "", none⟩

/-- A plain-visit body `{page:"/x"}` with no `site` at all: the handler
stores `site: 'unknown'`, but the duplicate-branch `findOne` queries the
raw absent value. -/
def noSiteVisitInput : TrackInput := ⟨none, some "/x", none, none, none⟩

/-- One plain visit tracked into the empty store. -/
def oneVisitStore : Store :=
  (track Store.empty "1.2.3.4" none visitInput "2026-10-12" 0).1

/-- Two identical click events tracked into the empty store. -/
def clickTwiceStore : Store :=
  (track (track Store.empty "1.2.3.4" none clickInput "2026-10-12" 0).1
    "1.2.3.4" none clickInput "2026-10-12" 1).1

/-- One visit followed by two `session_started` conversion events. -/
def conversionStore : Store :=
  (track (track oneVisitStore "1.2.3.4" none conversionInput "2026-10-12" 1).1
    "1.2.3.4" none conversionInput "2026-10-12" 2).1

/-- One visit from an address longer than the redaction prefix. -/
def leakStore : Store :=
  (track Store.empty "123.456.789.012" none visitInput "2026-10-12" 0).1

/-!
## Reachable store states and the dedup invariant
-/

/-- Store states reachable from the empty collection by any sequence of
`track` and `save_messages` operations. -/
inductive Reachable : Store → Prop where
  | init : Reachable Store.empty
  | track (st : Store) (ip : String) (ua : Option String) (inp : TrackInput)
      (today : String) (now : Nat) :
      Reachable st → Reachable (track st ip ua inp today now).1
  | save (st : Store) (sid : Option String) (msgs : Option (List String))
      (meta : Option (List (String × String))) (now : Nat) :
      Reachable st → Reachable (save_messages st sid msgs meta now).1

/-- The uniqueness invariant enforced by the partial unique index: the
(ip, date, site) keys of the records satisfying the partial filter are
pairwise distinct. -/
def VisitUnique (st : Store) : Prop :=
  ((visitFilter st.records).map indexKey).Nodup

/-!
## Equation lemmas for the track handler branches
-/

theorem strOr_visit_of_plain {e : Option String}
    (h : e = none ∨ e = some "visit") : strOr e "visit" = "visit" := by
  rcases h with h | h <;> simp [h, strOr]

theorem strOr_of_ne {e : String} (h : e ≠ "") {d : String} :
    strOr (some e) d = e := by
  simp [strOr, h]

/-- The plain-visit insert branch: no conflicting record, so a dated visit
document is appended and the call reports `unique: true` with the fresh
identifier. -/
theorem track_visit_insert (st : Store) (ip : String) (ua : Option String)
    (inp : TrackInput) (today : String) (now : Nat)
    (hET : strOr inp.event "visit" = "visit")
    (hc : visitIndexConflict st.records ip today (strOr inp.site "unknown") = false) :
    track st ip ua inp today now =
      (⟨st.records ++ [{ trackDoc st ip ua inp now with date := some today }],
        st.nextId + 1⟩,
       { unique := true, total := st.records.length + 1,
         sessionId := some st.nextId }) := by
  unfold track
  rw [hET]
  simp [hc]

/-- The plain-visit duplicate branch: a conflicting record exists, the
store is left unchanged, and the fallback lookup runs over the raw
request site. -/
theorem track_visit_dup (st : Store) (ip : String) (ua : Option String)
    (inp : TrackInput) (today : String) (now : Nat)
    (hET : strOr inp.event "visit" = "visit")
    (hc : visitIndexConflict st.records ip today (strOr inp.site "unknown") = true) :
    track st ip ua inp today now =
      (st, { unique := false, total := st.records.length,
             sessionId := (findTriple st.records ip today inp.site).map (·.id) }) := by
  unfold track
  rw [hET]
  simp [hc]

/-- The discrete-event branch: always insert, always `unique: true`. -/
theorem track_event (st : Store) (ip : String) (ua : Option String)
    (inp : TrackInput) (today : String) (now : Nat)
    (hET : strOr inp.event "visit" ≠ "visit") :
    track st ip ua inp today now =
      (⟨st.records ++ [trackDoc st ip ua inp now], st.nextId + 1⟩,
       { unique := true, total := st.records.length + 1,
         sessionId := some st.nextId }) := by
  unfold track
  simp [if_neg hET]

/-!
## Preservation of the dedup invariant
-/

theorem updateConv_id (oid : Nat) (m : List String) (cm : List (String × String))
    (t : Nat) (r : Record) : (updateConv oid m cm t r).id = r.id := by
  unfold updateConv; split <;> rfl

theorem updateConv_indexKey (oid : Nat) (m : List String) (cm : List (String × String))
    (t : Nat) (r : Record) : indexKey (updateConv oid m cm t r) = indexKey r := by
  unfold updateConv indexKey; split <;> rfl

theorem updateConv_visitIndexed (oid : Nat) (m : List String) (cm : List (String × String))
    (t : Nat) (r : Record) : visitIndexed (updateConv oid m cm t r) = visitIndexed r := by
  unfold updateConv visitIndexed; split <;> rfl

/-- A `save_messages` call either leaves the store untouched or maps the
conversation-field overwrite over the records. -/
theorem save_messages_state (st : Store) (sid : Option String)
    (msgs : Option (List String)) (meta : Option (List (String × String))) (now : Nat) :
    (save_messages st sid msgs meta now).1 = st ∨
    ∃ oid m, (save_messages st sid msgs meta now).1 =
      ⟨st.records.map (updateConv oid m (meta.getD []) now), st.nextId⟩ := by
  unfold save_messages
  rcases sid with _ | s
  · left; rfl
  rcases msgs with _ | m
  · left; rfl
  simp only
  split
  · left; rfl
  · cases parseObjectId s with
    | none => left; rfl
    | some oid =>
      simp only
      split
      · right; exact ⟨oid, m, rfl⟩
      · left; rfl

theorem filter_append_singleton_pos {α : Type} {p : α → Bool} {l : List α} {a : α}
    (h : p a = true) : (l ++ [a]).filter p = l.filter p ++ [a] := by
  rw [List.filter_append]; simp [h]

theorem filter_append_singleton_neg {α : Type} {p : α → Bool} {l : List α} {a : α}
    (h : p a = false) : (l ++ [a]).filter p = l.filter p := by
  rw [List.filter_append]; simp [h]

theorem visitUnique_track (st : Store) (ip : String) (ua : Option String)
    (inp : TrackInput) (today : String) (now : Nat) (h : VisitUnique st) :
    VisitUnique (track st ip ua inp today now).1 := by
  by_cases hET : strOr inp.event "visit" = "visit"
  · by_cases hc : visitIndexConflict st.records ip today (strOr inp.site "unknown") = true
    · rw [track_visit_dup st ip ua inp today now hET hc]
      exact h
    · have hc' : visitIndexConflict st.records ip today (strOr inp.site "unknown") = false :=
        by rwa [Bool.not_eq_true] at hc
      rw [track_visit_insert st ip ua inp today now hET hc']
      unfold VisitUnique visitFilter at h ⊢
      have hv : visitIndexed { trackDoc st ip ua inp now with date := some today } = true := by
        simp [visitIndexed, trackDoc, hET]
      rw [filter_append_singleton_pos hv, List.map_append, List.map_singleton]
      apply List.Nodup.append h (List.nodup_singleton _)
      intro a ha ha'
      simp only [List.mem_singleton] at ha'
      subst ha'
      obtain ⟨r, hr, hkey⟩ := List.mem_map.mp ha
      obtain ⟨hrm, hri⟩ := List.mem_filter.mp hr
      unfold visitIndexConflict at hc'
      rw [List.any_eq_false] at hc'
      apply hc' r hrm
      unfold indexKey at hkey
      simp only [trackDoc, Prod.mk.injEq] at hkey
      simp [hri, hkey.1, hkey.2.1, hkey.2.2]
  · rw [track_event st ip ua inp today now hET]
    unfold VisitUnique visitFilter at h ⊢
    have hv : visitIndexed (trackDoc st ip ua inp now) = false := by
      simp [visitIndexed, trackDoc, hET]
    rw [filter_append_singleton_neg hv]
    exact h

theorem visitUnique_save (st : Store) (sid : Option String)
    (msgs : Option (List String)) (meta : Option (List (String × String))) (now : Nat)
    (h : VisitUnique st) : VisitUnique (save_messages st sid msgs meta now).1 := by
  rcases save_messages_state st sid msgs meta now with heq | ⟨oid, m, heq⟩
  · rw [heq]; exact h
  · rw [heq]
    unfold VisitUnique visitFilter at h ⊢
    rw [List.filter_map, List.map_map]
    have h1 : (visitIndexed ∘ updateConv oid m (meta.getD []) now) = visitIndexed :=
      funext (fun r => updateConv_visitIndexed oid m (meta.getD []) now r)
    have h2 : (indexKey ∘ updateConv oid m (meta.getD []) now) = indexKey :=
      funext (fun r => updateConv_indexKey oid m (meta.getD []) now r)
    rw [h1, h2]
    exact h

/-!
## Claim C2 — the dedup invariant on all reachable states
-/

/-- C2: in every store state reachable by any sequence of `track` and
`save_messages` operations, at most one plain-visit record (one record
satisfying the partial filter `event ∈ {visit, null}`) exists per
(clientAddress, calendarDate, site) triple: the index keys of the
filtered records are pairwise distinct.  Non-visit event records are
exempt: `clickTwiceStore` is a reachable state holding two records that
share one (ip, date, site) key. -/
theorem C2_visit_dedup_invariant :
    (∀ st, Reachable st → VisitUnique st) ∧
    (Reachable clickTwiceStore ∧ clickTwiceStore.records.length = 2 ∧
      ¬ (clickTwiceStore.records.map indexKey).Nodup) := by
  constructor
  · intro st h
    induction h with
    | init => simp [VisitUnique, Store.empty, visitFilter]
    | track st ip ua inp today now _ ih => exact visitUnique_track st ip ua inp today now ih
    | save st sid msgs meta now _ ih => exact visitUnique_save st sid msgs meta now ih
  · exact ⟨Reachable.track _ _ _ _ _ _ (Reachable.track _ _ _ _ _ _ Reachable.init),
      by decide, by decide⟩

/-- C2 witness: the invariant evaluated on a concrete reachable state. -/
theorem C2_visit_dedup_invariant_witness :
    Reachable oneVisitStore ∧ VisitUnique oneVisitStore :=
  ⟨Reachable.track _ _ _ _ _ _ Reachable.init,
   C2_visit_dedup_invariant.1 oneVisitStore (Reachable.track _ _ _ _ _ _ Reachable.init)⟩

/-!
## Claim C9 — route dispatch for /stats/conversations
-/

/-- C9: first-match routing sends a GET for the path
`/stats/conversations` to the conversation-summary handler — the
conversations route is registered before the parametric `/stats/:site`
route — so the request is never captured as a site named
`"conversations"`. -/
theorem C9_conversations_route :
    firstMatch routesGET ["stats", "conversations"] = some HandlerTag.statsConversations ∧
    firstMatch routesGET ["stats", "conversations"] ≠ some HandlerTag.statsSite := by
  decide

/-!
## Claim C4 — address redaction on the read paths
-/

/-- C4 counterexample: the JSON branch of `GET /admin/export` returns the
stored records verbatim, so the full raw address of a stored record —
distinct from its redacted form — is returned by a read endpoint. -/
theorem C4_counterexample :
    (exportEndpoint (some "secret-key") none "secret-key" "json" "all" leakStore).exportIpList
      = ["123.456.789.012"] ∧
    redactIP "123.456.789.012" ≠ "123.456.789.012" ∧
    leakStore.records.map (fun r => r.ip) = ["123.456.789.012"] := by
  decide

/-- C4 (amended): the stats recent-visit list, the per-visit lookup and
the CSV export all truncate the address to the fixed 10-character prefix
plus the `"..."` marker, and every stored record reaches the JSON export
payload unredacted (the raw record itself is emitted). -/
theorem C4_redaction_amended (st : Store) (r : Record) (h : r ∈ st.records) :
    (recentVisitView r).ip = redactIP r.ip ∧
    (visitView r).ip = redactIP r.ip ∧
    (csvRow r).ip = redactIP r.ip ∧
    r ∈ sortTsDesc (filterByType "all" st.records) := by
  refine ⟨rfl, rfl, rfl, ?_⟩
  unfold filterByType
  rw [if_neg (by decide), if_neg (by decide)]
  exact (List.perm_insertionSort _ st.records).mem_iff.mpr h

/-- C4 witness: the amended redaction facts at a concrete stored record. -/
theorem C4_redaction_amended_witness :
    (recentVisitView (trackDoc Store.empty "123.456.789.012" none visitInput 0)).ip
      = redactIP "123.456.789.012" ∧
    (visitView (trackDoc Store.empty "123.456.789.012" none visitInput 0)).ip
      = redactIP "123.456.789.012" ∧
    (csvRow (trackDoc Store.empty "123.456.789.012" none visitInput 0)).ip
      = redactIP "123.456.789.012" ∧
    trackDoc Store.empty "123.456.789.012" none visitInput 0
      ∈ sortTsDesc (filterByType "all" [trackDoc Store.empty "123.456.789.012" none visitInput 0]) :=
  C4_redaction_amended ⟨[trackDoc Store.empty "123.456.789.012" none visitInput 0], 1⟩
    (trackDoc Store.empty "123.456.789.012" none visitInput 0) (by decide)

/-!
## Claim C10 — malformed session identifiers give 500, not 404
-/

/-- C10: a `save_messages` call whose session identifier passes the
presence check but is not a valid 24-hex-character ObjectId string makes
`new ObjectId(...)` throw inside the handler's `try`, producing a 500
server error — not a 404 — and leaving the store unchanged. -/
theorem C10_save_messages_bad_id (st : Store) (sid : String) (msgs : List String)
    (meta : Option (List (String × String))) (now : Nat)
    (hne : sid ≠ "") (hbad : parseObjectId sid = none) :
    save_messages st (some sid) (some msgs) meta now = (st, .serverError) ∧
    SaveResult.serverError.status = 500 ∧
    SaveResult.serverError ≠ SaveResult.notFound := by
  refine ⟨?_, rfl, by decide⟩
  unfold save_messages
  simp only
  rw [if_neg hne, hbad]

/-- C10 witness: the malformed identifier `"zzz"` on the empty store. -/
theorem C10_save_messages_bad_id_witness :
    save_messages Store.empty (some "zzz") (some ["hi"]) none 0
      = (Store.empty, .serverError) ∧
    SaveResult.serverError.status = 500 ∧
    SaveResult.serverError ≠ SaveResult.notFound :=
  C10_save_messages_bad_id Store.empty "zzz" ["hi"] none 0 (by decide) (by decide)

/-!
## Claim C1 — same-day visit deduplication
-/

theorem find?_append_none {α : Type} {p : α → Bool} {l₁ l₂ : List α}
    (h : l₁.find? p = none) : (l₁ ++ l₂).find? p = l₂.find? p := by
  induction l₁ with
  | nil => rfl
  | cons a t ih =>
    cases hp : p a with
    | true =>
      rw [List.find?_cons_of_pos _ hp] at h
      cases h
    | false =>
      have hp' : ¬ p a = true := by simp [hp]
      rw [List.find?_cons_of_neg _ hp'] at h
      rw [List.cons_append, List.find?_cons_of_neg _ hp']
      exact ih h

/-- C1 counterexample: two identical plain-visit calls with no `site` in
the body.  The first stores a record with site `'unknown'` and returns
its identifier; the second hits the duplicate-key conflict (it creates no
record and answers `unique: false` without error), but its fallback
`findOne({ip, date, site})` queries the raw absent site, misses the
stored `'unknown'` record, and returns NO session identifier — not the
first call's. -/
theorem C1_counterexample :
    (track Store.empty "1.2.3.4" none noSiteVisitInput "2026-10-12" 0).2.unique = true ∧
    (track Store.empty "1.2.3.4" none noSiteVisitInput "2026-10-12" 0).2.sessionId
      = some 0 ∧
    (track (track Store.empty "1.2.3.4" none noSiteVisitInput "2026-10-12" 0).1
        "1.2.3.4" none noSiteVisitInput "2026-10-12" 5).2.unique = false ∧
    (track (track Store.empty "1.2.3.4" none noSiteVisitInput "2026-10-12" 0).1
        "1.2.3.4" none noSiteVisitInput "2026-10-12" 5).2.sessionId = none ∧
    (track (track Store.empty "1.2.3.4" none noSiteVisitInput "2026-10-12" 0).1
        "1.2.3.4" none noSiteVisitInput "2026-10-12" 5).1
      = (track Store.empty "1.2.3.4" none noSiteVisitInput "2026-10-12" 0).1 := by
  decide

/-- C1 (amended): two plain-visit track calls (eventKind absent or
`"visit"`) with the same originating address and the same present,
non-empty (truthy) site on the same UTC day, starting from a store with
no record the fallback query would find for that (address, day, site)
triple: the first call inserts a record and answers `unique: true` with
its fresh identifier; the second call inserts nothing (the duplicate-key
conflict is absorbed, not surfaced as an error — the handler still
answers normally), answers `unique: false`, and returns the same session
identifier, namely the identifier of the existing record for the triple.
When the request site is falsy the dedup and the flag still behave this
way, but the raw-site fallback lookup misses the stored `'unknown'`
record and no identifier is returned (the counterexample above). -/
theorem C1_visit_dedup (st : Store) (ip : String) (ua1 ua2 : Option String)
    (inp : TrackInput) (s : String) (today : String) (now1 now2 : Nat)
    (hev : inp.event = none ∨ inp.event = some "visit")
    (hsite : inp.site = some s) (hs : s ≠ "")
    (hfresh : findTriple st.records ip today (some s) = none) :
    (track st ip ua1 inp today now1).2.unique = true ∧
    (track st ip ua1 inp today now1).2.sessionId = some st.nextId ∧
    (track st ip ua1 inp today now1).1.records.length = st.records.length + 1 ∧
    (track (track st ip ua1 inp today now1).1 ip ua2 inp today now2).2.unique = false ∧
    (track (track st ip ua1 inp today now1).1 ip ua2 inp today now2).2.sessionId
      = some st.nextId ∧
    (track (track st ip ua1 inp today now1).1 ip ua2 inp today now2).1
      = (track st ip ua1 inp today now1).1 := by
  have hET := strOr_visit_of_plain hev
  have hnorm : strOr inp.site "unknown" = s := by
    rw [hsite]
    exact strOr_of_ne hs
  have hfresh' := List.find?_eq_none.mp hfresh
  have hc1 : visitIndexConflict st.records ip today (strOr inp.site "unknown") = false := by
    unfold visitIndexConflict
    rw [List.any_eq_false]
    intro r hr hcon
    apply hfresh' r hr
    rw [hnorm] at hcon
    simp only [siteQueryMatches, Bool.and_eq_true] at hcon ⊢
    exact hcon.2
  rw [track_visit_insert st ip ua1 inp today now1 hET hc1]
  have hpred : (fun r : Record =>
      r.ip == ip && r.date == some today && siteQueryMatches (some s) r)
      { trackDoc st ip ua1 inp now1 with date := some today } = true := by
    simp [trackDoc, siteQueryMatches, hnorm]
  have hc2 : visitIndexConflict
      (st.records ++ [{ trackDoc st ip ua1 inp now1 with date := some today }])
      ip today (strOr inp.site "unknown") = true := by
    unfold visitIndexConflict
    rw [List.any_append]
    simp [visitIndexed, trackDoc, hET]
  have hfind : findTriple
      (st.records ++ [{ trackDoc st ip ua1 inp now1 with date := some today }])
      ip today inp.site
      = some { trackDoc st ip ua1 inp now1 with date := some today } := by
    rw [hsite]
    unfold findTriple
    unfold findTriple at hfresh
    rw [find?_append_none hfresh]
    exact List.find?_cons_of_pos _ hpred
  rw [track_visit_dup _ ip ua2 inp today now2 hET hc2]
  rw [hfind]
  exact ⟨rfl, rfl, by simp, rfl, rfl, rfl⟩

/-- C1 witness: the spec scenario — `{site:"a", page:"/x"}` tracked twice
from `1.2.3.4` on the same day against the empty store. -/
theorem C1_visit_dedup_witness :
    (track Store.empty "1.2.3.4" none visitInput "2026-10-12" 0).2.unique = true ∧
    (track Store.empty "1.2.3.4" none visitInput "2026-10-12" 0).2.sessionId = some 0 ∧
    (track Store.empty "1.2.3.4" none visitInput "2026-10-12" 0).1.records.length = 0 + 1 ∧
    (track (track Store.empty "1.2.3.4" none visitInput "2026-10-12" 0).1
      "1.2.3.4" none visitInput "2026-10-12" 5).2.unique = false ∧
    (track (track Store.empty "1.2.3.4" none visitInput "2026-10-12" 0).1
      "1.2.3.4" none visitInput "2026-10-12" 5).2.sessionId = some 0 ∧
    (track (track Store.empty "1.2.3.4" none visitInput "2026-10-12" 0).1
      "1.2.3.4" none visitInput "2026-10-12" 5).1
      = (track Store.empty "1.2.3.4" none visitInput "2026-10-12" 0).1 :=
  C1_visit_dedup Store.empty "1.2.3.4" none none visitInput "a" "2026-10-12" 0 5
    (Or.inl rfl) rfl (by decide) (by decide)

/-!
## Claim C3 — discrete events are never deduplicated
-/

/-- C3 counterexample: the empty string is a non-`"visit"` `eventKind`
string, yet `event || 'visit'` coalesces it to a plain visit, so the
second identical call is deduplicated: it creates no record and reports
`unique: false`, leaving one stored record instead of two. -/
theorem C3_counterexample :
    (track (track Store.empty "1.2.3.4" none emptyEventInput "2026-10-12" 0).1
        "1.2.3.4" none emptyEventInput "2026-10-12" 1).2.unique = false ∧
    (track (track Store.empty "1.2.3.4" none emptyEventInput "2026-10-12" 0).1
        "1.2.3.4" none emptyEventInput "2026-10-12" 1).1.records.length = 1 := by
  decide

/-- C3 (amended): for every track call whose eventKind is a non-empty
non-`"visit"` string, the call always inserts a new record and reports
`unique: true` regardless of existing records; two consecutive identical
event calls from the same address, site and day append two records
carrying two distinct fresh identifiers. -/
theorem C3_events_always_insert (st : Store) (ip : String) (ua1 ua2 : Option String)
    (inp : TrackInput) (e : String) (today : String) (now1 now2 : Nat)
    (he : inp.event = some e) (hev : e ≠ "visit") (hne : e ≠ "") :
    (track st ip ua1 inp today now1).2.unique = true ∧
    (track st ip ua1 inp today now1).2.sessionId = some st.nextId ∧
    (track (track st ip ua1 inp today now1).1 ip ua2 inp today now2).2.unique = true ∧
    (track (track st ip ua1 inp today now1).1 ip ua2 inp today now2).2.sessionId
      = some (st.nextId + 1) ∧
    (track (track st ip ua1 inp today now1).1 ip ua2 inp today now2).1.records
      = st.records ++ [trackDoc st ip ua1 inp now1,
          trackDoc (track st ip ua1 inp today now1).1 ip ua2 inp now2] ∧
    (trackDoc st ip ua1 inp now1).id
      ≠ (trackDoc (track st ip ua1 inp today now1).1 ip ua2 inp now2).id := by
  have hET : strOr inp.event "visit" ≠ "visit" := by
    rw [he, strOr_of_ne hne]
    exact hev
  rw [track_event st ip ua1 inp today now1 hET]
  rw [track_event _ ip ua2 inp today now2 hET]
  refine ⟨rfl, rfl, rfl, rfl, by simp, ?_⟩
  show st.nextId ≠ st.nextId + 1
  exact Nat.ne_of_lt (Nat.lt_succ_self st.nextId)

/-- C3 witness: the spec scenario — `{site:"a", eventKind:"click",
metadata:{el:"btn"}}` tracked twice from the same address. -/
theorem C3_events_always_insert_witness :
    (track Store.empty "1.2.3.4" none clickInput "2026-10-12" 0).2.unique = true ∧
    (track Store.empty "1.2.3.4" none clickInput "2026-10-12" 0).2.sessionId = some 0 ∧
    (track (track Store.empty "1.2.3.4" none clickInput "2026-10-12" 0).1
      "1.2.3.4" none clickInput "2026-10-12" 1).2.unique = true ∧
    (track (track Store.empty "1.2.3.4" none clickInput "2026-10-12" 0).1
      "1.2.3.4" none clickInput "2026-10-12" 1).2.sessionId = some (0 + 1) ∧
    (track (track Store.empty "1.2.3.4" none clickInput "2026-10-12" 0).1
      "1.2.3.4" none clickInput "2026-10-12" 1).1.records
      = [] ++ [trackDoc Store.empty "1.2.3.4" none clickInput 0,
          trackDoc (track Store.empty "1.2.3.4" none clickInput "2026-10-12" 0).1
            "1.2.3.4" none clickInput 1] ∧
    (trackDoc Store.empty "1.2.3.4" none clickInput 0).id
      ≠ (trackDoc (track Store.empty "1.2.3.4" none clickInput "2026-10-12" 0).1
          "1.2.3.4" none clickInput 1).id :=
  C3_events_always_insert Store.empty "1.2.3.4" none none clickInput "click"
    "2026-10-12" 0 1 rfl (by decide) (by decide)

/-!
## Claim C5 — the admin gate short-circuits every protected endpoint
-/

/-- C5: whenever the secret supplied via the `x-admin-key` header or the
`key` query parameter differs from the configured secret, every protected
endpoint answers `Unauthorized` (401) without touching the store (the
result is the bare 401 constant for every store state); with the correct
secret supplied through either channel alone, the stats endpoint runs its
body — header and query parameter are interchangeable (for the header
channel the configured secret must be non-empty, an empty header being
falsy; the configured value always is, since an unset `ADMIN_KEY`
defaults to `'change-me-in-production'`). -/
theorem C5_admin_gate (hk qk : Option String) (secret : String) (st : Store)
    (today weekAgo monthAgo site idParam format ty : String)
    (hbad : adminKeySupplied hk qk ≠ some secret) (hs : secret ≠ "") :
    statsEndpoint hk qk secret today weekAgo monthAgo st = .unauthorized ∧
    siteStatsEndpoint hk qk secret site today weekAgo st = .unauthorized ∧
    convStatsEndpoint hk qk secret st = .unauthorized ∧
    visitEndpoint hk qk secret idParam st = .unauthorized ∧
    exportEndpoint hk qk secret format ty st = .unauthorized ∧
    (statsEndpoint hk qk secret today weekAgo monthAgo st).status = 401 ∧
    statsEndpoint (some secret) none secret today weekAgo monthAgo st
      = .result (statsBody st today weekAgo monthAgo) ∧
    statsEndpoint none (some secret) secret today weekAgo monthAgo st
      = .result (statsBody st today weekAgo monthAgo) := by
  have hheader : adminKeySupplied (some secret) none = some secret := by
    simp [adminKeySupplied, hs]
  have hquery : adminKeySupplied none (some secret) = some secret := rfl
  refine ⟨?_, ?_, ?_, ?_, ?_, ?_, ?_, ?_⟩
  · unfold statsEndpoint; rw [if_neg hbad]
  · unfold siteStatsEndpoint; rw [if_neg hbad]
  · unfold convStatsEndpoint; rw [if_neg hbad]
  · unfold visitEndpoint; rw [if_neg hbad]
  · unfold exportEndpoint; rw [if_neg hbad]
  · unfold statsEndpoint; rw [if_neg hbad]; rfl
  · unfold statsEndpoint; rw [if_pos hheader]
  · unfold statsEndpoint; rw [if_pos hquery]

/-- C5 witness: a wrong header key against a configured secret `"s"`. -/
theorem C5_admin_gate_witness :
    statsEndpoint (some "wrong") none "s" "d" "d" "d" Store.empty = .unauthorized ∧
    siteStatsEndpoint (some "wrong") none "s" "a" "d" "d" Store.empty = .unauthorized ∧
    convStatsEndpoint (some "wrong") none "s" Store.empty = .unauthorized ∧
    visitEndpoint (some "wrong") none "s" "id" Store.empty = .unauthorized ∧
    exportEndpoint (some "wrong") none "s" "json" "all" Store.empty = .unauthorized ∧
    (statsEndpoint (some "wrong") none "s" "d" "d" "d" Store.empty).status = 401 ∧
    statsEndpoint (some "s") none "s" "d" "d" "d" Store.empty
      = .result (statsBody Store.empty "d" "d" "d") ∧
    statsEndpoint none (some "s") "s" "d" "d" "d" Store.empty
      = .result (statsBody Store.empty "d" "d" "d") :=
  C5_admin_gate (some "wrong") none "s" Store.empty "d" "d" "d" "a" "id" "json" "all"
    (by decide) (by decide)

/-!
## Claim C6 — save_messages input validation and missing records
-/

theorem parseObjectId_ne_empty {s : String} {oid : Nat}
    (h : parseObjectId s = some oid) : s ≠ "" := by
  intro he
  subst he
  rw [show parseObjectId "" = none from rfl] at h
  cases h

/-- C6: a `save_messages` call without a session identifier or without a
message list fails with `InvalidArgument` (400) leaving the store
unchanged; a call whose well-formed identifier matches no stored record
fails with `NotFound` (404), creating and modifying nothing. -/
theorem C6_save_messages_validation (st : Store) (m0 : Option (List String))
    (msgs : List String) (meta : Option (List (String × String))) (now : Nat)
    (sid : String) (oid : Nat)
    (hsid : parseObjectId sid = some oid)
    (hnone : st.records.all (fun r => !(r.id == oid)) = true) :
    save_messages st none m0 meta now = (st, .invalidArgument) ∧
    save_messages st (some sid) none meta now = (st, .invalidArgument) ∧
    save_messages st (some sid) (some msgs) meta now = (st, .notFound) ∧
    SaveResult.invalidArgument.status = 400 ∧
    SaveResult.notFound.status = 404 := by
  refine ⟨by cases m0 <;> rfl, rfl, ?_, rfl, rfl⟩
  unfold save_messages
  simp only
  rw [if_neg (parseObjectId_ne_empty hsid), hsid]
  simp only
  have hany : st.records.any (fun r => r.id == oid) = false := by
    rw [List.any_eq_false]
    intro r hr
    have := List.all_eq_true.mp hnone r hr
    simp only [Bool.not_eq_true'] at this
    simp [this]
  rw [if_neg (by simp [hany])]

/-- C6 witness: a well-formed identifier (value 10) absent from the
one-record store. -/
theorem C6_save_messages_validation_witness :
    save_messages oneVisitStore none (some ["hi"]) none 7
      = (oneVisitStore, .invalidArgument) ∧
    save_messages oneVisitStore (some "00000000000000000000000a") none none 7
      = (oneVisitStore, .invalidArgument) ∧
    save_messages oneVisitStore (some "00000000000000000000000a") (some ["hi"]) none 7
      = (oneVisitStore, .notFound) ∧
    SaveResult.invalidArgument.status = 400 ∧
    SaveResult.notFound.status = 404 :=
  C6_save_messages_validation oneVisitStore (some ["hi"]) ["hi"] none 7
    "00000000000000000000000a" 10 (by decide) (by decide)

/-!
## Claim C7 — save_messages is an idempotent replace
-/

theorem updateConv_updateConv (oid : Nat) (m1 : List String) (c1 : List (String × String))
    (t1 : Nat) (m2 : List String) (c2 : List (String × String)) (t2 : Nat) (r : Record) :
    updateConv oid m2 c2 t2 (updateConv oid m1 c1 t1 r) = updateConv oid m2 c2 t2 r := by
  by_cases h : (r.id == oid) = true
  · simp [updateConv, h]
  · simp [updateConv, h]

theorem any_id_map_updateConv (l : List Record) (oid' oid : Nat) (m : List String)
    (c : List (String × String)) (t : Nat) :
    (l.map (updateConv oid m c t)).any (fun r => r.id == oid')
      = l.any (fun r => r.id == oid') := by
  induction l with
  | nil => rfl
  | cons a l' ih => simp [List.map_cons, List.any_cons, updateConv_id, ih]

/-- The success branch of `save_messages`: a matching record exists, so
the `$set` overwrite is mapped over the collection and the message count
is returned. -/
theorem save_messages_found (st : Store) (s : String) (oid : Nat) (m : List String)
    (meta : Option (List (String × String))) (now : Nat)
    (hs : parseObjectId s = some oid)
    (hmem : st.records.any (fun r => r.id == oid) = true) :
    save_messages st (some s) (some m) meta now
      = (⟨st.records.map (updateConv oid m (meta.getD []) now), st.nextId⟩,
         .ok m.length) := by
  unfold save_messages
  simp only
  rw [if_neg (parseObjectId_ne_empty hs), hs]
  simp only
  rw [if_pos hmem]

/-- C7: a successful `save_messages` call on an existing record answers
with the count of messages stored, and overwrites — rather than appends
to — the conversation fields: after two successive calls with the same
identifier the store holds exactly the second payload (the double update
collapses to a single update with the latest payload), with
`conversation_updated_at` stamped with the second call's time. -/
theorem C7_save_messages_replace (st : Store) (sid : String) (oid : Nat)
    (m1 m2 : List String) (meta1 meta2 : Option (List (String × String))) (t1 t2 : Nat)
    (hsid : parseObjectId sid = some oid)
    (hmem : st.records.any (fun r => r.id == oid) = true) :
    (save_messages st (some sid) (some m1) meta1 t1).2 = .ok m1.length ∧
    (save_messages (save_messages st (some sid) (some m1) meta1 t1).1
        (some sid) (some m2) meta2 t2).2 = .ok m2.length ∧
    (save_messages (save_messages st (some sid) (some m1) meta1 t1).1
        (some sid) (some m2) meta2 t2).1.records
      = st.records.map (updateConv oid m2 (meta2.getD []) t2) ∧
    ∀ r ∈ (save_messages (save_messages st (some sid) (some m1) meta1 t1).1
        (some sid) (some m2) meta2 t2).1.records,
      r.id = oid → r.messages = some m2 ∧
        r.conversation_metadata = some (meta2.getD []) ∧
        r.conversation_updated_at = some t2 := by
  rw [save_messages_found st sid oid m1 meta1 t1 hsid hmem]
  have hmem2 : (st.records.map (updateConv oid m1 (meta1.getD []) t1)).any
      (fun r => r.id == oid) = true := by
    rw [any_id_map_updateConv]
    exact hmem
  rw [save_messages_found _ sid oid m2 meta2 t2 hsid hmem2]
  refine ⟨rfl, rfl, ?_, ?_⟩
  · show (st.records.map (updateConv oid m1 (meta1.getD []) t1)).map
        (updateConv oid m2 (meta2.getD []) t2) = _
    rw [List.map_map]
    exact List.map_congr_left
      (fun a _ => updateConv_updateConv oid m1 (meta1.getD []) t1 m2 (meta2.getD []) t2 a)
  · intro r hr hid
    simp only [List.map_map] at hr
    obtain ⟨a, _, rfl⟩ := List.mem_map.mp hr
    have haid : a.id = oid := by
      simp only [Function.comp_apply, updateConv_id] at hid
      exact hid
    simp [Function.comp_apply, updateConv, haid]

/-- C7 witness: overwrite the one stored visit twice; the record holds
only the second payload. -/
theorem C7_save_messages_replace_witness :
    (save_messages oneVisitStore (some "000000000000000000000000") (some ["a"]) none 1).2
      = .ok 1 ∧
    (save_messages
        (save_messages oneVisitStore (some "000000000000000000000000") (some ["a"]) none 1).1
        (some "000000000000000000000000") (some ["b", "c"]) (some [("scenario", "x")]) 2).2
      = .ok 2 ∧
    (save_messages
        (save_messages oneVisitStore (some "000000000000000000000000") (some ["a"]) none 1).1
        (some "000000000000000000000000") (some ["b", "c"]) (some [("scenario", "x")]) 2).1.records
      = oneVisitStore.records.map (updateConv 0 ["b", "c"] [("scenario", "x")] 2) :=
  ⟨(C7_save_messages_replace oneVisitStore "000000000000000000000000" 0 ["a"] ["b", "c"]
      none (some [("scenario", "x")]) 1 2 (by decide) (by decide)).1,
   (C7_save_messages_replace oneVisitStore "000000000000000000000000" 0 ["a"] ["b", "c"]
      none (some [("scenario", "x")]) 1 2 (by decide) (by decide)).2.1,
   (C7_save_messages_replace oneVisitStore "000000000000000000000000" 0 ["a"] ["b", "c"]
      none (some [("scenario", "x")]) 1 2 (by decide) (by decide)).2.2.1⟩

/-!
## Claim C8 — the conversion rate
-/

theorem sumCounts_incr (acc : List (String × Nat)) (k : String) :
    sumCounts (incr acc k) = sumCounts acc + 1 := by
  induction acc with
  | nil => rfl
  | cons p t ih =>
    obtain ⟨k', n⟩ := p
    unfold incr
    by_cases h : k = k'
    · rw [if_pos h]
      simp only [sumCounts, List.map_cons, List.sum_cons]
      omega
    · rw [if_neg h]
      simp only [sumCounts, List.map_cons, List.sum_cons] at ih ⊢
      omega

theorem sumCounts_foldl (key : Record → String) (rs : List Record)
    (acc : List (String × Nat)) :
    sumCounts (rs.foldl (fun a r => incr a (key r)) acc) = sumCounts acc + rs.length := by
  induction rs generalizing acc with
  | nil => simp
  | cons r t ih =>
    rw [List.foldl_cons, ih, sumCounts_incr]
    simp [List.length_cons]
    omega

/-- The per-site `total` — the fold over the `by_page` buckets — is the
number of visit records of the site. -/
theorem sumCounts_countBy (key : Record → String) (rs : List Record) :
    sumCounts (countBy key rs) = rs.length := by
  unfold countBy
  rw [sumCounts_foldl]
  simp [sumCounts]

theorem conversionRateStr_eq_spec (num denom : Nat) :
    conversionRateStr num denom = specRateString num denom := by
  unfold conversionRateStr specRateString
  rcases Nat.eq_zero_or_pos denom with h | h
  · simp [h]
  · rw [if_pos h, if_neg (Nat.pos_iff_ne_zero.mp h)]

/-- C8 counterexample: conversion events are counted by the numerator but
excluded from the visit denominator, so with one visit and two
`session_started` conversions the reported rate is `"200.00%"` — outside
`[0, 100]`. -/
theorem C8_counterexample :
    conversionCount conversionStore = 2 ∧
    totalVisits conversionStore = 1 ∧
    (statsBody conversionStore "2026-10-12" "2026-10-05" "2026-09-12").summary.conversion_rate
      = "200.00%" ∧
    100 < ((conversionCount conversionStore : ℚ) / (totalVisits conversionStore)) * 100 := by
  refine ⟨by decide, by decide, by decide, ?_⟩
  have h1 : conversionCount conversionStore = 2 := by decide
  have h2 : totalVisits conversionStore = 1 := by decide
  rw [h1, h2]
  norm_num

/-- C8 (amended): the conversion rate of the global and per-site
summaries is `(numerator/denominator)*100` rounded to two decimals,
rendered with a trailing `%`, and is `"0%"` whenever the denominator is
zero — never a division error (the computation is total).  As a quotient
of counts it is never negative, but it is NOT bounded by 100: the
numerator counts conversion event records, which are disjoint from the
visit records counted by the denominator. -/
theorem C8_rate_amended (st : Store) (today weekAgo monthAgo site : String) (num : Nat) :
    (statsBody st today weekAgo monthAgo).summary.conversion_rate
      = specRateString (conversionCount st) (totalVisits st) ∧
    (siteStatsBody st site today weekAgo).summary.conversion_rate
      = specRateString (siteConversions st site) (siteVisits st site).length ∧
    (siteStatsBody st site today weekAgo).summary.total = (siteVisits st site).length ∧
    specRateString num 0 = "0%" ∧
    conversionRateStr num 0 = "0%" := by
  refine ⟨conversionRateStr_eq_spec _ _, ?_, ?_, rfl, rfl⟩
  · show conversionRateStr (siteConversions st site)
        (sumCounts (countBy (·.page) (siteVisits st site))) = _
    rw [sumCounts_countBy, conversionRateStr_eq_spec]
  · show sumCounts (countBy (·.page) (siteVisits st site)) = _
    exact sumCounts_countBy _ _

end IIAnalytics
